import Mathlib

/-
Verification development for the Contar fleet-scanning engine.

Shallow embedding of:
  src/app/utils/constants.py   (NetworkConfig, StatusRadio, Credenciais, STATUS_PRIORITY)
  src/app/models/data_models.py (RadioResult and its post-init validation)
  src/app/network/ssh_client.py (SSHCommandType, command building, execute_safe_command, close)
  src/app/core/engine.py       (retry wrapper, per-device processing, batch loop with
                                circuit breaker)

Conventions of the embedding:
  - Python exceptions become the inductive PyExc; raising code returns Except PyExc.
  - The remote side of one session attempt is abstracted by SessionSpec: the outcome
    of SSHClient.connect, an optional exception thrown during exec_command, the exit
    status, and stdout/stderr already stripped of surrounding whitespace.
  - Wall-clock timestamps (datetime.now) are abstracted to the empty string; no
    claim concerns them.  Logging calls are not modelled.
-/

namespace Contar

/-- Python exception classes reachable in the engine code.  AppError subclasses
from src/app/models/exceptions.py plus the builtins the code touches.  Every
constructor models a subclass of Exception, so an `except Exception` clause
catches all of them. -/
inductive PyExc where
  | connectionError (msg : String)
  | timeoutError (msg : String)
  | deviceOffline (msg : String)
  | authError (msg : String)
  | sshExecError (msg : String)
  | valueError (msg : String)
  | otherError (msg : String)
deriving DecidableEq

/-- Message carried by an exception, modelling str(e). -/
def PyExc.msg : PyExc → String
  | .connectionError m => m
  | .timeoutError m => m
  | .deviceOffline m => m
  | .authError m => m
  | .sshExecError m => m
  | .valueError m => m
  | .otherError m => m

/-- StatusRadio enum from src/app/utils/constants.py. -/
inductive StatusRadio where
  | ONLINE | OFFLINE | ERRO_AUTH | ERRO_SSH | TIMEOUT | ERRO | DESCONHECIDO
deriving DecidableEq

/-- The .value strings of StatusRadio. -/
def StatusRadio.value : StatusRadio → String
  | .ONLINE => "Online"
  | .OFFLINE => "Offline"
  | .ERRO_AUTH => "Erro Auth"
  | .ERRO_SSH => "Erro SSH"
  | .TIMEOUT => "Timeout"
  | .ERRO => "Erro"
  | .DESCONHECIDO => "Desconhecido"

/-- NetworkConfig constants from src/app/utils/constants.py. -/
def NetworkConfig.CIRCUIT_BREAKER_THRESHOLD : Nat := 5

/-- NetworkConfig.RETRY_ATTEMPTS from src/app/utils/constants.py. -/
def NetworkConfig.RETRY_ATTEMPTS : Nat := 3

/-- STATUS_PRIORITY map from src/app/utils/constants.py: total order used for
prioritized sorting, lowest is most urgent.  The specification names the
priority-4 status ExecError; in the code it is the string "Erro SSH". -/
def STATUS_PRIORITY : List (String × Nat) :=
  [ (StatusRadio.ERRO.value, 0)
  , (StatusRadio.TIMEOUT.value, 1)
  , (StatusRadio.OFFLINE.value, 2)
  , (StatusRadio.ERRO_AUTH.value, 3)
  , (StatusRadio.ERRO_SSH.value, 4)
  , (StatusRadio.ONLINE.value, 5) ]

/-- Credenciais from src/app/utils/constants.py: frozen dataclass holding the
SSH username and password. -/
structure Credenciais where
  usuario : String
  senha : String
deriving DecidableEq

/-- Credenciais.__repr__: returns a fixed masked string, ignoring the fields. -/
def Credenciais.reprStr (_ : Credenciais) : String :=
  "Credenciais(usuario=*****, senha=****)"

/-- RadioResult from src/app/models/data_models.py. -/
structure RadioResult where
  ip : String
  torre : String
  status : String
  clientes : Int
  observacao : String
  hora : Option String
deriving DecidableEq

/-- RadioResult construction including __post_init__ validation.  The
isinstance type checks of __post_init__ are enforced by the Lean types of the
fields; the remaining runtime check rejects a negative client count with
ValueError. -/
def mkRadioResult (ip torre status : String) (clientes : Int)
    (observacao : String) (hora : Option String) : Except PyExc RadioResult :=
  if clientes < 0 then
    .error (.valueError ("clientes não pode ser negativo: " ++ toString clientes))
  else
    .ok ⟨ip, torre, status, clientes, observacao, hora⟩

/-- SSHCommandType allowlist enum from src/app/network/ssh_client.py. -/
inductive SSHCommandType where
  | WSTALIST | SYSTEM_STATUS | UPTIME
deriving DecidableEq

/-- The .value strings of SSHCommandType. -/
def SSHCommandType.value : SSHCommandType → String
  | .WSTALIST => "wstalist"
  | .SYSTEM_STATUS => "mca-status"
  | .UPTIME => "uptime"

/-- Single-quote character as a one-character string. -/
def sq : String := (Char.ofNat 39).toString

/-- Characters admitted by the character class of the filter regex
r"^[a-zA-Z0-9_\-]+$". -/
def isFilterChar (c : Char) : Bool :=
  (('a' ≤ c && c ≤ 'z') || ('A' ≤ c && c ≤ 'Z') ||
   ('0' ≤ c && c ≤ '9') || c = '_' || c = '-')

/-- Python truthiness of a string: non-empty.  Working on the character list
keeps every definition reducible by the kernel. -/
def pyTruthy (s : String) : Bool := !s.data.isEmpty

/-- Python str slicing s[:n]: the first n characters. -/
def pySlice (s : String) (n : Nat) : String := ⟨s.data.take n⟩

/-- Python re.match with pattern r"^[a-zA-Z0-9_\-]+$": the match is anchored at
the start, and the dollar matches at the end of the string or just before one
trailing newline.  Hence a string consisting of one or more class characters
followed by at most one final newline matches. -/
def pyRegexFilterMatch (s : String) : Bool :=
  let l := s.data
  let core := if l.getLast? = some '\n' then l.dropLast else l
  !core.isEmpty && core.all isFilterChar

/-- One validated filter clause as built by _build_safe_command:
grep -c followed by a single-quoted string opening with a double quote. -/
def grepFilter (f : String) : String :=
  "grep -c " ++ sq ++ "\"" ++ f ++ sq

/-- The validation loop of _build_safe_command: validates each filter against
the regex in order, failing with ValueError at the first rejected filter,
and collects the grep clauses of the accepted ones. -/
def validateFilters : List String → Except PyExc (List String)
  | [] => .ok []
  | f :: rest =>
    if pyRegexFilterMatch f then
      match validateFilters rest with
      | .ok vs => .ok (grepFilter f :: vs)
      | .error e => .error e
    else
      .error (.valueError ("Filtro malicioso detectado: " ++ f))

/-- Python str.join with separator pipe-between-spaces, as used to chain the
validated grep clauses. -/
def joinPipes : List String → String
  | [] => ""
  | [x] => x
  | x :: rest => x ++ " | " ++ joinPipes rest

/-- SSHClient._build_safe_command: returns the bare command when no filters are
given, otherwise validates every filter and pipes the grep clauses after the
base command. -/
def build_safe_command (cmd : SSHCommandType) (filters : List String) :
    Except PyExc String :=
  if filters.isEmpty then
    .ok cmd.value
  else
    match validateFilters filters with
    | .error e => .error e
    | .ok vs => .ok (cmd.value ++ " | " ++ joinPipes vs)

/-- Connection state of one SSHClient instance: the _connected flag and the
paramiko client handle (abstracted to Option Unit; None models self.client
being None). -/
structure SSHClientState where
  connected : Bool
  client : Option Unit
deriving DecidableEq

/-- SSHClient.__init__: self.client = None, self._connected = False. -/
def initClientState : SSHClientState := ⟨false, none⟩

/-- SSHClient.close: when a handle exists, close it (the close call may raise,
in which case _connected is not cleared), then the finally block always sets
the handle to None.  When no handle exists, nothing happens. -/
def closeClient (st : SSHClientState) (closeRaises : Bool) : SSHClientState :=
  match st.client with
  | some _ =>
    if closeRaises then { st with client := none }
    else { connected := false, client := none }
  | none => st

/-- Remote behaviour of one session attempt, abstracting the network:
the outcome of SSHClient.connect (classified into the exceptions that connect
raises), an optional exception thrown while executing the command, the exit
status reported by the channel, and stdout/stderr already stripped. -/
structure SessionSpec where
  connect : Except PyExc Unit
  execException : Option PyExc
  exitStatus : Int
  stdout : String
  stderr : String

/-- Exception wrapping of execute_safe_command: an SSHExecutionError is
re-raised as is; any other exception raised while building or executing the
command is wrapped into SSHExecutionError. -/
def wrapExecException (host : String) (e : PyExc) : PyExc :=
  match e with
  | .sshExecError m => .sshExecError m
  | e => .sshExecError ("Erro ao executar comando em " ++ host ++ ": " ++ e.msg)

/-- SSHClient.execute_safe_command.  Returns the raised-or-returned outcome
together with the list of command strings actually sent over the wire during
the call (empty when the guard rejects the call or command building fails).
When not connected or the handle is gone it raises ConnectionError before
building any command; otherwise it builds the command, sends it, checks the
exit status (non-zero raises SSHExecutionError carrying stderr or a generic
message) and returns the stripped stdout. -/
def execute_safe_command (host : String) (st : SSHClientState)
    (cmd : SSHCommandType) (filters : List String) (s : SessionSpec) :
    Except PyExc String × List String :=
  if !st.connected || st.client.isNone then
    (.error (.connectionError "Cliente SSH não está conectado. Use with statement."), [])
  else
    match build_safe_command cmd filters with
    | .error e => (.error (wrapExecException host e), [])
    | .ok comando =>
      match s.execException with
      | some e => (.error (wrapExecException host e), [comando])
      | none =>
        if s.exitStatus != 0 then
          let erroMsg :=
            if s.stderr != "" then s.stderr
            else "Comando falhou com código " ++ toString s.exitStatus
          (.error (.sshExecError ("Comando falhou: " ++ erroMsg)), [comando])
        else
          (.ok s.stdout, [comando])

/-- Task record consumed by the engine: an object with attributes ip, nome and
torre (getattr defaults are absorbed into total fields). -/
structure Tarefa where
  ip : String
  nome : String
  torre : String
deriving DecidableEq

/-- Result dictionary built by the engine (keys ip, nome, torre, status,
clientes, hora, erro). -/
structure Resultado where
  ip : String
  nome : String
  torre : String
  status : String
  clientes : Nat
  hora : String
  erro : Option String
deriving DecidableEq

/-- The resultado dictionary as initialised at the top of
_processar_com_retry: status Desconhecido, zero clients, no error.
datetime.now is abstracted to the empty string. -/
def baseResultado (t : Tarefa) : Resultado :=
  ⟨t.ip, t.nome, t.torre, StatusRadio.DESCONHECIDO.value, 0, "", none⟩

/-- Python str.isdigit for the ASCII strings this program handles: non-empty
and every character a decimal digit. -/
def pyIsdigit (s : String) : Bool := !s.data.isEmpty && s.data.all Char.isDigit

/-- Python int() on an all-digit string: base-10 value. -/
def pyInt (s : String) : Nat :=
  s.data.foldl (fun n c => n * 10 + (c.toNat - 48)) 0

/-- The try block of _processar_com_retry: connect (the with statement),
execute the allowlisted command with filter mac, then either fill in an
Online result with the parsed client count or an Erro result with note
Output inválido.  Exceptions propagate to the except chain. -/
def runTry (t : Tarefa) (s : SessionSpec) : Except PyExc Resultado :=
  match s.connect with
  | .error e => .error e
  | .ok _ =>
    match (execute_safe_command t.ip ⟨true, some ()⟩ SSHCommandType.WSTALIST ["mac"] s).1 with
    | .error e => .error e
    | .ok output =>
      if pyTruthy output && pyIsdigit output then
        .ok { baseResultado t with clientes := pyInt output, status := StatusRadio.ONLINE.value }
      else
        .ok { baseResultado t with status := StatusRadio.ERRO.value, erro := some "Output inválido" }

/-- The except chain of _processar_com_retry, in source order:
AuthenticationError, DeviceOfflineError, SSHExecutionError, TimeoutError,
then the catch-all except Exception.  Every modelled exception is an
Exception, so the chain is total and each branch fills the resultado
dictionary. -/
def exceptChain (t : Tarefa) (e : PyExc) : Option Resultado :=
  match e with
  | .authError _ =>
    some { baseResultado t with status := StatusRadio.ERRO_AUTH.value,
                                erro := some "Credenciais inválidas" }
  | .deviceOffline _ =>
    some { baseResultado t with status := StatusRadio.OFFLINE.value,
                                erro := some "Dispositivo inacessível" }
  | .sshExecError m =>
    some { baseResultado t with status := StatusRadio.ERRO_SSH.value,
                                erro := some (pySlice m 100) }
  | .timeoutError _ =>
    some { baseResultado t with status := StatusRadio.TIMEOUT.value,
                                erro := some "Timeout na conexão" }
  | e =>
    some { baseResultado t with status := StatusRadio.ERRO.value,
                                erro := some (pySlice e.msg 100) }

/-- One call of the undecorated _processar_com_retry body on one session
attempt: run the try block and, when it raises, let the except chain handle
the exception; an exception no clause matches would propagate. -/
def attemptSem (t : Tarefa) (s : SessionSpec) : Except PyExc Resultado :=
  match runTry t s with
  | .ok r => .ok r
  | .error e =>
    match exceptChain t e with
    | some r => .ok r
    | none => .error e

/-- Exceptions the tenacity decorator on _processar_com_retry retries:
retry_if_exception_type((ConnectionError, TimeoutError, DeviceOfflineError)). -/
def isRetryableExc : PyExc → Bool
  | .connectionError _ => true
  | .timeoutError _ => true
  | .deviceOffline _ => true
  | _ => false

/-- Tenacity retry loop with stop_after_attempt and reraise=True: call the
function; on success stop; on a retryable exception with attempts remaining
retry after backoff (the delay is irrelevant to the values computed); on a
non-retryable exception or on the last attempt re-raise.  Returns the number
of attempts made together with the final outcome. -/
def tenacityGo (f : Nat → Except PyExc Resultado) (i : Nat) :
    Nat → Nat × Except PyExc Resultado
  | 0 => (0, .error (.otherError "stop before first attempt"))
  | 1 => (1, f i)
  | n + 2 =>
    match f i with
    | .ok r => (1, .ok r)
    | .error e =>
      if isRetryableExc e then
        let rec0 := tenacityGo f (i + 1) (n + 1)
        (rec0.1 + 1, rec0.2)
      else
        (1, .error e)

/-- The decorated _processar_com_retry applied to a device whose successive
session attempts behave as b 0, b 1, ...: the tenacity loop around the body,
with the configured attempt bound.  Returns (attempts made, outcome). -/
def processar_com_retry_run (t : Tarefa) (b : Nat → SessionSpec) :
    Nat × Except PyExc Resultado :=
  tenacityGo (fun i => attemptSem t (b i)) 0 NetworkConfig.RETRY_ATTEMPTS

/-- The synthesized failure dictionary of processar_unidade when the retried
call raises: status Erro, note Falha após múltiplas tentativas. -/
def fallbackResultado (t : Tarefa) : Resultado :=
  { baseResultado t with status := StatusRadio.ERRO.value,
                         erro := some "Falha após múltiplas tentativas" }

/-- ProcessamentoEngine.processar_unidade with its raise-or-return semantics:
call the retried check; if it raises any Exception return the synthesized
failure dictionary.  The outer except catches Exception, hence every PyExc. -/
def processar_unidade_sem (t : Tarefa) (b : Nat → SessionSpec) :
    Except PyExc Resultado :=
  match (processar_com_retry_run t b).2 with
  | .ok r => .ok r
  | .error _ => .ok (fallbackResultado t)

/-- processar_unidade as the total function it is (it never raises). -/
def processar_unidade (t : Tarefa) (b : Nat → SessionSpec) : Resultado :=
  match processar_unidade_sem t b with
  | .ok r => r
  | .error _ => fallbackResultado t

/-- What the dispatcher observes for one completed future in
processar_em_lote:  future.result returned a dictionary, or raised
FuturesTimeoutError, or raised some other exception with a message. -/
inductive Completion where
  | done (t : Tarefa) (r : Resultado)
  | futTimeout (t : Tarefa)
  | failed (t : Tarefa) (msg : String)
deriving DecidableEq

/-- Timeout dictionary synthesized by the FuturesTimeoutError branch. -/
def timeoutResultado (t : Tarefa) : Resultado :=
  ⟨t.ip, t.nome, t.torre, StatusRadio.TIMEOUT.value, 0, "", some "Timeout na execução"⟩

/-- Error dictionary synthesized by the generic exception branch. -/
def excResultado (t : Tarefa) (msg : String) : Resultado :=
  ⟨t.ip, t.nome, t.torre, StatusRadio.ERRO.value, 0, "", some (pySlice msg 100)⟩

/-- One iteration of the completion loop of processar_em_lote, applied to the
current consecutive-failure counter: the appended dictionary and the new
counter.  A future that returns resets the counter to zero whatever the
dictionary says; a future timeout or exception appends a synthesized
dictionary and increments the counter. -/
def breakerStep (falhas : Nat) (c : Completion) : Resultado × Nat :=
  match c with
  | .done _ r => (r, 0)
  | .futTimeout t => (timeoutResultado t, falhas + 1)
  | .failed t m => (excResultado t m, falhas + 1)

/-- Whether a completion is a future-level failure (the only completions that
increment the consecutive-failure counter in the code). -/
def isFutureFailure : Completion → Bool
  | .done _ _ => false
  | .futTimeout _ => true
  | .failed _ _ => true

/-- The completion loop of processar_em_lote: process completions in order,
appending each dictionary; after each one, if the counter has reached
CIRCUIT_BREAKER_THRESHOLD, shut the executor down cancelling outstanding
futures and break, returning what was collected so far. -/
def loteGo : List Completion → Nat → List Resultado
  | [], _ => []
  | c :: rest, falhas =>
    let step := breakerStep falhas c
    if NetworkConfig.CIRCUIT_BREAKER_THRESHOLD ≤ step.2 then [step.1]
    else step.1 :: loteGo rest step.2

/-- ProcessamentoEngine.processar_em_lote viewed on the stream of completions
it drains (completion order is nondeterministic; the stream is the order
as_completed yields): counter starts at zero, results are accumulated until
the stream ends or the breaker trips. -/
def processar_em_lote (comps : List Completion) : List Resultado :=
  loteGo comps 0

/-- Concrete task used by witnesses and counterexamples. -/
def tarefa0 : Tarefa := ⟨"10.0.0.5", "R1", "Torre A"⟩

/-- Session behaviour of a device whose TCP probe always fails: connect raises
DeviceOfflineError on every attempt. -/
def offlineSessao : SessionSpec := ⟨.error (.deviceOffline "Host inacessível"), none, 0, "", ""⟩

/-- Session behaviour of a device that rejects the credentials. -/
def authSessao : SessionSpec := ⟨.error (.authError "Falha na autenticação"), none, 0, "", ""⟩

/-- Session that connects, runs the command with exit status 0 and prints a
non-numeric diagnostic. -/
def busySessao : SessionSpec := ⟨.ok (), none, 0, "error: busy", ""⟩

/-- Session that connects, runs the command with exit status 0 and prints 7. -/
def seteSessao : SessionSpec := ⟨.ok (), none, 0, "7", ""⟩

/-- The body of the decorated function never raises: the try block either
returns a filled dictionary or raises an exception that some clause of the
except chain converts into a dictionary. -/
theorem attemptSem_ok (t : Tarefa) (s : SessionSpec) : ∃ r, attemptSem t s = .ok r := by
  unfold attemptSem
  cases runTry t s with
  | ok r => exact ⟨r, rfl⟩
  | error e => cases e <;> exact ⟨_, rfl⟩

/-- When the first attempt returns a dictionary, the tenacity loop stops after
exactly one attempt with that dictionary. -/
theorem tenacityGo_first_ok (f : Nat → Except PyExc Resultado) (i n : Nat) (r : Resultado)
    (h : f i = .ok r) : tenacityGo f i (n + 2) = (1, .ok r) := by
  simp [tenacityGo, h]

/-- The retried check on a device whose first attempt yields a dictionary:
one attempt, that dictionary. -/
theorem processar_com_retry_first_ok (t : Tarefa) (b : Nat → SessionSpec) (r : Resultado)
    (h : attemptSem t (b 0) = .ok r) : processar_com_retry_run t b = (1, .ok r) := by
  show tenacityGo (fun i => attemptSem t (b i)) 0 (1 + 2) = (1, .ok r)
  exact tenacityGo_first_ok _ 0 1 r h

/-- Claim C4: for every task and every session behaviour, whatever exceptions
the attempts raise (offline, authentication, SSH execution, timeout, or any
other exception), processar_unidade never propagates an exception to its
caller: the raise-or-return semantics always returns a dictionary. -/
theorem processar_unidade_total (t : Tarefa) (b : Nat → SessionSpec) :
    ∃ r, processar_unidade_sem t b = Except.ok r := by
  obtain ⟨r, hr⟩ := attemptSem_ok t (b 0)
  have hp := processar_com_retry_first_ok t b r hr
  exact ⟨r, by simp [processar_unidade_sem, hp]⟩

/-- Claim C6: a device whose session rejects the credentials on the first
attempt triggers exactly one session attempt (authentication failures are not
retried), and the dictionary carries the authentication-error status. -/
theorem auth_single_attempt (t : Tarefa) (b : Nat → SessionSpec) (m : String)
    (h : (b 0).connect = .error (.authError m)) :
    (processar_com_retry_run t b).1 = 1 ∧
    processar_unidade t b =
      { baseResultado t with status := StatusRadio.ERRO_AUTH.value,
                             erro := some "Credenciais inválidas" } := by
  have ha : attemptSem t (b 0) =
      .ok { baseResultado t with status := StatusRadio.ERRO_AUTH.value,
                                 erro := some "Credenciais inválidas" } := by
    simp [attemptSem, runTry, h, exceptChain]
  have hp := processar_com_retry_first_ok t b _ ha
  exact ⟨by simp [hp], by simp [processar_unidade, processar_unidade_sem, hp]⟩

/-- Claim C6 witness: a concrete device failing authentication makes one
attempt and is classified Erro Auth. -/
theorem auth_single_attempt_witness :
    (processar_com_retry_run tarefa0 (fun _ => authSessao)).1 = 1 ∧
    processar_unidade tarefa0 (fun _ => authSessao) =
      { baseResultado tarefa0 with status := StatusRadio.ERRO_AUTH.value,
                                   erro := some "Credenciais inválidas" } :=
  auth_single_attempt tarefa0 (fun _ => authSessao) "Falha na autenticação" rfl

/-- Claim C5: evaluation at the failing input.  The filter consisting of mac
followed by a newline contains a character outside the allowed class, yet
_build_safe_command accepts it and builds a command string containing the raw
newline, because the dollar anchor of Python re.match also matches just before
one trailing newline.  A filter with other foreign characters is rejected with
ValueError, and a filter made only of class characters is accepted. -/
theorem filter_newline_code_bug_eval :
    ("mac\n").data.any (fun c => !isFilterChar c) = true ∧
    build_safe_command SSHCommandType.WSTALIST ["mac\n"] =
      .ok ("wstalist | grep -c " ++ sq ++ "\"mac\n" ++ sq) ∧
    build_safe_command SSHCommandType.WSTALIST ["mac;rm"] =
      .error (.valueError ("Filtro malicioso detectado: mac;rm")) ∧
    build_safe_command SSHCommandType.WSTALIST ["mac"] =
      .ok ("wstalist | grep -c " ++ sq ++ "\"mac" ++ sq) :=
  ⟨by decide, rfl, rfl, rfl⟩

/-- Claim C7: a session that connects, raises nothing during execution,
reports exit status 0 and prints an all-digit string is classified Online
after one attempt, with the client count equal to the base-10 value of the
output. -/
theorem online_count_parse (t : Tarefa) (b : Nat → SessionSpec)
    (hc : (b 0).connect = .ok ()) (he : (b 0).execException = none)
    (hx : (b 0).exitStatus = 0) (hd : pyIsdigit (b 0).stdout = true) :
    processar_unidade t b =
      { baseResultado t with status := StatusRadio.ONLINE.value,
                             clientes := pyInt (b 0).stdout } := by
  have ht : pyTruthy (b 0).stdout = true := by
    have hd2 := hd
    simp only [pyIsdigit, Bool.and_eq_true] at hd2
    simpa [pyTruthy] using hd2.1
  have hb : build_safe_command SSHCommandType.WSTALIST ["mac"] =
      .ok ("wstalist | grep -c " ++ sq ++ "\"mac" ++ sq) := rfl
  have ha : attemptSem t (b 0) =
      .ok { baseResultado t with status := StatusRadio.ONLINE.value,
                                 clientes := pyInt (b 0).stdout } := by
    simp [attemptSem, runTry, hc, execute_safe_command, hb, he, hx, ht, hd]
  have hp := processar_com_retry_first_ok t b _ ha
  simp [processar_unidade, processar_unidade_sem, hp]

/-- Claim C7 witness: a session printing 7 with exit status 0 yields an Online
dictionary counting 7 clients. -/
theorem online_count_parse_witness :
    processar_unidade tarefa0 (fun _ => seteSessao) =
      { baseResultado tarefa0 with status := StatusRadio.ONLINE.value,
                                   clientes := 7 } := by
  have h := online_count_parse tarefa0 (fun _ => seteSessao) rfl rfl rfl (by decide)
  simpa using h

/-- Claim C3 counterexample: a session that succeeds with exit status 0 but
prints a non-numeric diagnostic yields status Erro, not the priority-4 status
Erro SSH that the specification calls ExecError. -/
theorem invalid_output_counterexample :
    (processar_unidade tarefa0 (fun _ => busySessao)).status = StatusRadio.ERRO.value ∧
    (processar_unidade tarefa0 (fun _ => busySessao)).clientes = 0 ∧
    (processar_unidade tarefa0 (fun _ => busySessao)).erro = some "Output inválido" ∧
    StatusRadio.ERRO.value ≠ StatusRadio.ERRO_SSH.value := by decide

/-- Claim C3 amended: a session whose command succeeds with exit status 0 but
whose stripped output is not entirely numeric (or is empty) yields a
dictionary with the generic status Erro, client count 0 and note Output
inválido, and the call returns rather than raising any conversion failure. -/
theorem invalid_output_amended (t : Tarefa) (b : Nat → SessionSpec)
    (hc : (b 0).connect = .ok ()) (he : (b 0).execException = none)
    (hx : (b 0).exitStatus = 0) (hnum : pyIsdigit (b 0).stdout = false) :
    processar_unidade_sem t b =
      .ok { baseResultado t with status := StatusRadio.ERRO.value,
                                 erro := some "Output inválido" } := by
  have hb : build_safe_command SSHCommandType.WSTALIST ["mac"] =
      .ok ("wstalist | grep -c " ++ sq ++ "\"mac" ++ sq) := rfl
  have ha : attemptSem t (b 0) =
      .ok { baseResultado t with status := StatusRadio.ERRO.value,
                                 erro := some "Output inválido" } := by
    simp [attemptSem, runTry, hc, execute_safe_command, hb, he, hx, hnum]
  have hp := processar_com_retry_first_ok t b _ ha
  simp [processar_unidade_sem, hp]

/-- Claim C3 amended witness: the concrete output error busy is classified
with status Erro, zero clients and note Output inválido. -/
theorem invalid_output_amended_witness :
    processar_unidade_sem tarefa0 (fun _ => busySessao) =
      .ok { baseResultado tarefa0 with status := StatusRadio.ERRO.value,
                                       erro := some "Output inválido" } :=
  invalid_output_amended tarefa0 (fun _ => busySessao) rfl rfl rfl (by decide)

/-- Claim C2: evaluation at the failing input.  A device whose connection
raises DeviceOfflineError on every attempt makes exactly one session attempt,
not RETRY_ATTEMPTS, because the except chain inside the decorated body
swallows the retryable exceptions before the tenacity decorator can see them;
the dictionary is classified Offline with note Dispositivo inacessível, and
the note Falha após múltiplas tentativas of the exhausted-retries branch is
never produced. -/
theorem retry_bound_code_bug_eval :
    (processar_com_retry_run tarefa0 (fun _ => offlineSessao)).1 = 1 ∧
    (processar_com_retry_run tarefa0 (fun _ => offlineSessao)).1 ≠
      NetworkConfig.RETRY_ATTEMPTS ∧
    processar_unidade tarefa0 (fun _ => offlineSessao) =
      { baseResultado tarefa0 with status := StatusRadio.OFFLINE.value,
                                   erro := some "Dispositivo inacessível" } ∧
    (processar_unidade tarefa0 (fun _ => offlineSessao)).erro ≠
      some "Falha após múltiplas tentativas" ∧
    (processar_unidade tarefa0 (fun _ => offlineSessao)).status ≠
      StatusRadio.ERRO.value := by decide

/-- Claim C8: constructing a RadioResult with a negative client count fails
with ValueError, and every successfully constructed RadioResult has a
non-negative client count. -/
theorem radio_result_nonneg (ip torre status : String) (clientes : Int)
    (observacao : String) (hora : Option String) :
    (clientes < 0 →
      mkRadioResult ip torre status clientes observacao hora =
        .error (.valueError ("clientes não pode ser negativo: " ++ toString clientes))) ∧
    (∀ r, mkRadioResult ip torre status clientes observacao hora = .ok r →
      0 ≤ r.clientes) := by
  constructor
  · intro h
    simp [mkRadioResult, h]
  · intro r hr
    by_cases h : clientes < 0
    · simp [mkRadioResult, h] at hr
    · simp [mkRadioResult, h] at hr
      rw [← hr]
      show 0 ≤ clientes
      omega

/-- Claim C8 witness: count minus one is rejected with ValueError, and a
constructed record with count 7 is non-negative. -/
theorem radio_result_nonneg_witness :
    (mkRadioResult "10.0.0.5" "Torre A" "Online" (-1) "" none =
      .error (.valueError ("clientes não pode ser negativo: " ++ toString (-1 : Int)))) ∧
    0 ≤ (RadioResult.mk "10.0.0.5" "Torre A" "Online" 7 "" none).clientes := by
  constructor
  · exact (radio_result_nonneg "10.0.0.5" "Torre A" "Online" (-1) "" none).1 (by decide)
  · exact (radio_result_nonneg "10.0.0.5" "Torre A" "Online" 7 "" none).2 _ rfl

/-- Claim C9: the string conversion of Credenciais is the same for every pair
of credential values, so the rendered text reveals nothing about the username
or the secret. -/
theorem credenciais_repr_constant (c1 c2 : Credenciais) :
    c1.reprStr = c2.reprStr := rfl

/-- Claim C10: a client that was never connected, and a client after close
(whether or not the underlying close call raised), rejects
execute_safe_command with ConnectionError and sends no command over the
wire; close always clears the handle. -/
theorem closed_client_no_execute (host : String) (st : SSHClientState) (b : Bool)
    (cmd : SSHCommandType) (filters : List String) (s : SessionSpec) :
    execute_safe_command host initClientState cmd filters s =
      (.error (.connectionError "Cliente SSH não está conectado. Use with statement."), []) ∧
    (closeClient st b).client = none ∧
    execute_safe_command host (closeClient st b) cmd filters s =
      (.error (.connectionError "Cliente SSH não está conectado. Use with statement."), []) := by
  have hclosed : ∀ st2 : SSHClientState, (closeClient st2 b).client = none := by
    intro st2
    cases hcl : st2.client with
    | none => simp [closeClient, hcl]
    | some u => cases b <;> simp [closeClient, hcl]
  refine ⟨?_, hclosed st, ?_⟩
  · simp [execute_safe_command, initClientState]
  · simp [execute_safe_command, hclosed st]

/-- A dictionary as the engine classifies a non-successful completed task:
the worker returned it through future.result, status Erro. -/
def resultadoErroC1 : Resultado :=
  ⟨"10.0.0.9", "R9", "Torre B", StatusRadio.ERRO.value, 0, "", some "Credenciais inválidas"⟩

/-- On a stream whose first elements are future-level failures, the loop never
reaches the later completions once enough failures accumulate: processing the
whole stream equals processing the failing prefix alone. -/
theorem loteGo_trip (pre post : List Completion) (falhas : Nat)
    (hfail : ∀ c ∈ pre, isFutureFailure c = true)
    (hge : NetworkConfig.CIRCUIT_BREAKER_THRESHOLD ≤ falhas + pre.length)
    (hlt : falhas < NetworkConfig.CIRCUIT_BREAKER_THRESHOLD) :
    loteGo (pre ++ post) falhas = loteGo pre falhas := by
  induction pre generalizing falhas with
  | nil =>
    simp at hge
    omega
  | cons c rest ih =>
    have hc : isFutureFailure c = true := hfail c (by simp)
    have hstep : (breakerStep falhas c).2 = falhas + 1 := by
      cases c with
      | done t r => simp [isFutureFailure] at hc
      | futTimeout t => rfl
      | failed t m => rfl
    have hrest : ∀ x ∈ rest, isFutureFailure x = true :=
      fun x hx => hfail x (by simp [hx])
    by_cases hT : NetworkConfig.CIRCUIT_BREAKER_THRESHOLD ≤ (breakerStep falhas c).2
    · simp [loteGo, hT]
    · have h1 : NetworkConfig.CIRCUIT_BREAKER_THRESHOLD ≤ (falhas + 1) + rest.length := by
        simp [List.length_cons] at hge
        omega
      have h2 : falhas + 1 < NetworkConfig.CIRCUIT_BREAKER_THRESHOLD := by
        rw [hstep] at hT
        omega
      simp only [List.cons_append, loteGo, if_neg hT]
      rw [hstep]
      exact congrArg _ (ih (falhas + 1) hrest h1 h2)

/-- On a stream made only of future-level failures whose length brings the
counter exactly to the threshold, the loop consumes the whole stream: one
appended dictionary per completion. -/
theorem loteGo_trip_length (pre : List Completion) (falhas : Nat)
    (hfail : ∀ c ∈ pre, isFutureFailure c = true)
    (hsum : falhas + pre.length = NetworkConfig.CIRCUIT_BREAKER_THRESHOLD) :
    (loteGo pre falhas).length = pre.length := by
  induction pre generalizing falhas with
  | nil => simp [loteGo]
  | cons c rest ih =>
    have hc : isFutureFailure c = true := hfail c (by simp)
    have hstep : (breakerStep falhas c).2 = falhas + 1 := by
      cases c with
      | done t r => simp [isFutureFailure] at hc
      | futTimeout t => rfl
      | failed t m => rfl
    have hrest : ∀ x ∈ rest, isFutureFailure x = true :=
      fun x hx => hfail x (by simp [hx])
    by_cases hT : NetworkConfig.CIRCUIT_BREAKER_THRESHOLD ≤ (breakerStep falhas c).2
    · have hzero : rest.length = 0 := by
        rw [hstep] at hT
        simp [List.length_cons] at hsum
        omega
      simp [loteGo, hT, List.length_cons, hzero]
    · have h1 : (falhas + 1) + rest.length = NetworkConfig.CIRCUIT_BREAKER_THRESHOLD := by
        simp [List.length_cons] at hsum
        omega
      simp only [loteGo, if_neg hT, List.length_cons]
      rw [hstep]
      rw [ih (falhas + 1) hrest h1]

/-- Claim C1 counterexample: a completed task whose dictionary carries the
non-successful status Erro resets the consecutive-failure counter to zero
instead of incrementing it: future.result returned, so the code takes the
reset branch regardless of the status inside the dictionary. -/
theorem circuit_breaker_counterexample :
    resultadoErroC1.status ≠ StatusRadio.ONLINE.value ∧
    (breakerStep 2 (Completion.done tarefa0 resultadoErroC1)).2 = 0 ∧
    (breakerStep 2 (Completion.done tarefa0 resultadoErroC1)).2 ≠ 2 + 1 := by decide

/-- Claim C1 amended: the counter is incremented exactly when awaiting the
completion itself fails (future timeout or a raised exception) and reset to
zero whenever future.result returns a dictionary, whatever its status; and
once the counter reaches CIRCUIT_BREAKER_THRESHOLD the loop stops, the
remaining completions are never drained, and the dictionaries collected so
far (one per drained completion) are returned. -/
theorem circuit_breaker_amended (falhas : Nat) (t : Tarefa) (r : Resultado) (m : String)
    (pre post : List Completion)
    (hfail : ∀ c ∈ pre, isFutureFailure c = true)
    (hlen : pre.length = NetworkConfig.CIRCUIT_BREAKER_THRESHOLD) :
    (breakerStep falhas (Completion.done t r)).2 = 0 ∧
    (breakerStep falhas (Completion.futTimeout t)).2 = falhas + 1 ∧
    (breakerStep falhas (Completion.failed t m)).2 = falhas + 1 ∧
    processar_em_lote (pre ++ post) = processar_em_lote pre ∧
    (processar_em_lote (pre ++ post)).length = NetworkConfig.CIRCUIT_BREAKER_THRESHOLD := by
  have hpos : 0 < NetworkConfig.CIRCUIT_BREAKER_THRESHOLD := by decide
  have htrip : loteGo (pre ++ post) 0 = loteGo pre 0 :=
    loteGo_trip pre post 0 hfail (by omega) hpos
  refine ⟨rfl, rfl, rfl, htrip, ?_⟩
  show (loteGo (pre ++ post) 0).length = _
  rw [htrip, loteGo_trip_length pre 0 hfail (by omega), hlen]

/-- Claim C1 amended witness: five consecutive future timeouts trip the
breaker; a trailing successful completion is never drained, five dictionaries
come back, and the concrete counter updates behave as stated. -/
theorem circuit_breaker_amended_witness :
    (breakerStep 2 (Completion.done tarefa0 resultadoErroC1)).2 = 0 ∧
    (breakerStep 2 (Completion.futTimeout tarefa0)).2 = 2 + 1 ∧
    (breakerStep 2 (Completion.failed tarefa0 "boom")).2 = 2 + 1 ∧
    processar_em_lote
        (List.replicate 5 (Completion.futTimeout tarefa0) ++
          [Completion.done tarefa0 (baseResultado tarefa0)]) =
      processar_em_lote (List.replicate 5 (Completion.futTimeout tarefa0)) ∧
    (processar_em_lote
        (List.replicate 5 (Completion.futTimeout tarefa0) ++
          [Completion.done tarefa0 (baseResultado tarefa0)])).length =
      NetworkConfig.CIRCUIT_BREAKER_THRESHOLD :=
  circuit_breaker_amended 2 tarefa0 resultadoErroC1 "boom"
    (List.replicate 5 (Completion.futTimeout tarefa0))
    [Completion.done tarefa0 (baseResultado tarefa0)]
    (by decide) (by decide)

end Contar
